import Mathlib

/-!
# Authentication handlers of the Mystère Meal backend

A shallow embedding of `src/controllers/authController.js` (`generateToken`,
`signup`, `login`).  The handlers are embedded over an explicit store, an
explicit environment (`process.env`), an explicit clock and a record of the
calls made on the `User` model.  The `User` model itself (`models/User.js`)
is an interface the handlers are parameterised by; one instance of it is
written from the specification's Credential Store.
-/

namespace AuthController

/-! ## Values of a request body and of a response body -/

/-- A JSON value as it is found in a field of `req.body`; `undefined` is what
destructuring yields for a field the body does not have. -/
inductive JSVal where
  | undefined
  | null
  | bool (b : Bool)
  | num (n : Int)
  | str (s : String)
  deriving DecidableEq, Repr

/-- The parsed `req.body`: an object, as a list of fields (the first binding
of a key is the one that counts). -/
abbrev Body := List (String × JSVal)

/-- Reading of one field by destructuring, `const { k } = req.body`. -/
def Body.get (b : Body) (k : String) : JSVal :=
  match b.lookup k with
  | some v => v
  | none => JSVal.undefined

/-- A user document, with the fields the handlers read. -/
structure User where
  _id : Nat
  name : String
  email : String
  password : String
  isAdmin : Bool
  isLocked : Bool
  deriving DecidableEq, Repr

/-- The collection of user documents. -/
abbrev Store := List User

/-- The process environment `process.env`: the variables that are set, with
their values. -/
abbrev Env := List (String × String)

/-! ## The token library (`jsonwebtoken`) -/

/-- A signed token: the payload `id`, the two claims `jwt.sign` adds
(`iat`, `exp`, in seconds) and the key its signature was computed with. -/
structure Token where
  id : Nat
  iat : Nat
  exp : Nat
  key : String
  deriving DecidableEq, Repr

/-- Value of a run of decimal digits. -/
def digitsToNat (cs : List Char) : Nat :=
  cs.foldl (fun acc c => 10 * acc + (c.toNat - 48)) 0

/-- Milliseconds in one unit of a time span, for the short unit names of the
`ms` package (no unit means milliseconds). -/
def unitMillis : List Char → Option Nat
  | [] => some 1
  | ['m', 's'] => some 1
  | ['s'] => some 1000
  | ['m'] => some 60000
  | ['h'] => some 3600000
  | ['d'] => some 86400000
  | ['w'] => some 604800000
  | ['y'] => some 31557600000
  | _ => none

/-- The `ms` package on a time span written as a whole number followed by a
short unit name, such as `30d`: the span in milliseconds, or nothing when
the text is not of that form. -/
def ms (str : String) : Option Nat :=
  let cs := str.data
  let ds := cs.takeWhile Char.isDigit
  let us := cs.dropWhile Char.isDigit
  if ds = [] then none else (unitMillis us).map (fun u => digitsToNat ds * u)

/-- The call `jwt.sign({ id }, secret, { expiresIn })` at clock time `now`
(seconds):
it throws on an empty key and on a time span `ms` does not read; otherwise
the token carries `iat = now` and `exp = floor(iat + ms(expiresIn) / 1000)`. -/
def jwtSign (id : Nat) (secret : String) (expiresIn : String) (now : Nat) :
    Except String Token :=
  if secret = "" then Except.error "secretOrPrivateKey must have a value"
  else
    match ms expiresIn with
    | none => Except.error "expiresIn should be a number of seconds or string representing a timespan"
    | some millis => Except.ok { id := id, iat := now, exp := now + millis / 1000, key := secret }

/-- Modelled from the spec: `verify` of the Token Issuer/Verifier, section
4.3 (the middleware that verifies tokens is not among the sources), as
`jwt.verify(token, secret)` at clock time `now`: the payload id when the
signature was made with `secret` and the token has not expired
(`now < exp`), nothing otherwise. -/
def jwtVerify (t : Token) (secret : String) (now : Nat) : Option Nat :=
  if t.key = secret ∧ now < t.exp then some t.id else none

/-- The JavaScript `a || d` on an environment variable: `d` when the
variable is unset or is the empty string. -/
def orDefault (v : Option String) (d : String) : String :=
  match v with
  | some s => if s = "" then d else s
  | none => d

/-- The key `generateToken` signs with:
`process.env.JWT_SECRET || 'your-secret-key'`. -/
def signingSecret (env : Env) : String :=
  orDefault (env.lookup "JWT_SECRET") "your-secret-key"

/-- The helper `generateToken(id)`, lines 6-10. -/
def generateToken (env : Env) (now : Nat) (id : Nat) : Except String Token :=
  jwtSign id (signingSecret env) "30d" now

/-! ## The `User` model as the handlers use it -/

/-- The three operations of the `User` model the handlers call.  Each either
throws (an error with its message) or returns; `findOne` and
`matchPassword` read, `create` returns the document (or a falsy value) and
the store after it.  A call that throws leaves the store as it was. -/
structure UserModel where
  findOne : Store → JSVal → Except String (Option User)
  create : Store → JSVal → JSVal → JSVal → Except String (Option User × Store)
  matchPassword : User → JSVal → Except String Bool

/-- One call made on the `User` model, with its arguments. -/
inductive Call where
  | findOne (email : JSVal)
  | create (name email password : JSVal)
  | matchPassword (userId : Nat) (password : JSVal)
  deriving DecidableEq, Repr

/-- A value in a response body. -/
inductive Json where
  | bool (b : Bool)
  | num (n : Nat)
  | str (s : String)
  | jwt (t : Token)
  deriving DecidableEq, Repr

/-- What `res.status(..).json(..)` sends. -/
structure Res where
  status : Nat
  body : List (String × Json)
  deriving DecidableEq, Repr

/-- The result of running a handler: the response sent (if one was), the
store afterwards and the calls made on the `User` model, in order. -/
structure Outcome where
  response : Option Res
  store : Store
  calls : List Call
  deriving DecidableEq, Repr

/-- The `catch (error)` branch of both handlers:
`res.status(400).json({ message: error.message })`. -/
def caught (e : String) : Res :=
  { status := 400, body := [("message", Json.str e)] }

/-- The handler `signup`, lines 15-45. -/
def signup (M : UserModel) (env : Env) (now : Nat) (db : Store) (body : Body) : Outcome :=
  let name := body.get "name"
  let email := body.get "email"
  let password := body.get "password"
  match M.findOne db email with
  | Except.error e => ⟨some (caught e), db, [Call.findOne email]⟩
  | Except.ok (some _) =>
    ⟨some { status := 400, body := [("message", Json.str "User already exists")] }, db,
      [Call.findOne email]⟩
  | Except.ok none =>
    match M.create db name email password with
    | Except.error e =>
      ⟨some (caught e), db, [Call.findOne email, Call.create name email password]⟩
    | Except.ok (none, db1) =>
      ⟨none, db1, [Call.findOne email, Call.create name email password]⟩
    | Except.ok (some user, db1) =>
      match generateToken env now user._id with
      | Except.error e =>
        ⟨some (caught e), db1, [Call.findOne email, Call.create name email password]⟩
      | Except.ok token =>
        ⟨some { status := 201,
                body := [("_id", Json.num user._id), ("name", Json.str user.name),
                         ("email", Json.str user.email), ("isAdmin", Json.bool user.isAdmin),
                         ("token", Json.jwt token)] },
          db1, [Call.findOne email, Call.create name email password]⟩

/-- The handler `login`, lines 50-74 (`res.json` without `res.status` sends
200). -/
def login (M : UserModel) (env : Env) (now : Nat) (db : Store) (body : Body) : Outcome :=
  let email := body.get "email"
  let password := body.get "password"
  match M.findOne db email with
  | Except.error e => ⟨some (caught e), db, [Call.findOne email]⟩
  | Except.ok none =>
    ⟨some { status := 401, body := [("message", Json.str "Invalid email or password")] }, db,
      [Call.findOne email]⟩
  | Except.ok (some user) =>
    match M.matchPassword user password with
    | Except.error e =>
      ⟨some (caught e), db, [Call.findOne email, Call.matchPassword user._id password]⟩
    | Except.ok false =>
      ⟨some { status := 401, body := [("message", Json.str "Invalid email or password")] }, db,
        [Call.findOne email, Call.matchPassword user._id password]⟩
    | Except.ok true =>
      match generateToken env now user._id with
      | Except.error e =>
        ⟨some (caught e), db, [Call.findOne email, Call.matchPassword user._id password]⟩
      | Except.ok token =>
        ⟨some { status := 200,
                body := [("_id", Json.num user._id), ("name", Json.str user.name),
                         ("email", Json.str user.email), ("isAdmin", Json.bool user.isAdmin),
                         ("isLocked", Json.bool user.isLocked), ("token", Json.jwt token)] },
          db, [Call.findOne email, Call.matchPassword user._id password]⟩

/-! ## The Credential Store of the specification -/

/-- ASCII lower-casing of a text, the letter-case folding of the email
match. -/
def lowerCase (s : String) : String :=
  String.mk (s.data.map Char.toLower)

/-- The Password Hasher the `User` model delegates to: `hash` derives the
stored value, `verify plaintext stored` checks a plaintext against it. -/
structure Hasher where
  hash : String → String
  verify : String → String → Bool

/-- Modelled from the spec: `findByEmail` of the Credential Store
(`models/User.js` is not among the sources), section 4.1: the user whose
email matches exactly up to letter case, or not found. -/
def findByEmail (db : Store) (email : String) : Option User :=
  db.find? (fun u => lowerCase u.email == lowerCase email)

/-- The id the store assigns to the next document: one more than every id
in use. -/
def nextId (db : Store) : Nat :=
  (db.map (fun u => u._id)).foldr max 0 + 1

/-- Modelled from the spec: `create` of the Credential Store
(`models/User.js` is not among the sources), sections 3 and 4.1: it fails
with `DuplicateEmail` if an existing record matches, fails on input that is
not a non-empty name with a text email and password, and otherwise hashes
the password, persists one record with a server-assigned id and the default
flags, and returns it. -/
def createUser (H : Hasher) (db : Store) (name email password : JSVal) :
    Except String (Option User × Store) :=
  match name, email, password with
  | JSVal.str n, JSVal.str e, JSVal.str p =>
    if n = "" then Except.error "ValidationError"
    else
      match findByEmail db e with
      | some _ => Except.error "DuplicateEmail"
      | none =>
        let u : User :=
          { _id := nextId db, name := n, email := e, password := H.hash p,
            isAdmin := false, isLocked := false }
        Except.ok (some u, db ++ [u])
  | _, _, _ => Except.error "ValidationError"

/-- Modelled from the spec: the `User` model (`models/User.js` is not among
the sources) as the Credential Store and Password Hasher of sections 4.1
and 4.2 describe it: lookup by email up to letter case, `create` as above,
and `matchPassword` as the hasher's `verify` of the plaintext against the
stored hash.  A query or password that is not a text matches nothing. -/
def specModel (H : Hasher) : UserModel where
  findOne := fun db email =>
    match email with
    | JSVal.str e => Except.ok (findByEmail db e)
    | _ => Except.ok none
  create := createUser H
  matchPassword := fun u password =>
    match password with
    | JSVal.str p => Except.ok (H.verify p u.password)
    | _ => Except.ok false

/-- A hasher for concrete runs: the stored value is the plaintext behind a
fixed tag. -/
def tagHasher : Hasher where
  hash := fun p => "h:" ++ p
  verify := fun p stored => stored == "h:" ++ p

/-- A `User` model whose lookup throws, as a lost database connection
does. -/
def failingModel (msg : String) : UserModel where
  findOne := fun _ _ => Except.error msg
  create := fun _ _ _ _ => Except.error msg
  matchPassword := fun _ _ => Except.error msg

/-- A response value with the issuance time of a token taken out: the token
is re-dated to time 0, keeping its lifetime `exp - iat`. -/
def Json.sinceIssuance : Json → Json
  | Json.jwt t => Json.jwt { t with iat := 0, exp := t.exp - t.iat }
  | j => j

/-- A response with the issuance time of its token taken out. -/
def withoutIssuanceTime (r : Res) : Res :=
  { r with body := r.body.map (fun kv => (kv.1, kv.2.sinceIssuance)) }

/-! ## Concrete inputs -/

/-- A stored user whose password hash is `tagHasher.hash "pw1"`. -/
def ana : User :=
  { _id := 1, name := "Ana", email := "a@x.com", password := "h:pw1",
    isAdmin := false, isLocked := false }

/-- The same user after the account was locked. -/
def lockedAna : User := { ana with isLocked := true }

def anaSignup : Body :=
  [("name", JSVal.str "Ana"), ("email", JSVal.str "a@x.com"), ("password", JSVal.str "pw1")]

/-- The signup body of `anaSignup` with the two flags added by the client. -/
def anaSignupAsAdmin : Body :=
  [("isAdmin", JSVal.bool true), ("name", JSVal.str "Ana"), ("email", JSVal.str "a@x.com"),
   ("isLocked", JSVal.bool true), ("password", JSVal.str "pw1")]

def anaUpperSignup : Body :=
  [("name", JSVal.str "Ann"), ("email", JSVal.str "A@X.COM"), ("password", JSVal.str "pw2")]

def anaLogin : Body :=
  [("email", JSVal.str "a@x.com"), ("password", JSVal.str "pw1")]

def anaUpperLogin : Body :=
  [("email", JSVal.str "A@X.COM"), ("password", JSVal.str "pw1")]

def anaWrongPassword : Body :=
  [("email", JSVal.str "a@x.com"), ("password", JSVal.str "guess")]

def strangerLogin : Body :=
  [("email", JSVal.str "b@x.com"), ("password", JSVal.str "pw1")]

/-- A production environment in which `JWT_SECRET` is not set. -/
def productionEnv : Env := [("NODE_ENV", "production")]

/-- An environment with a configured secret. -/
def configuredEnv : Env := [("NODE_ENV", "production"), ("JWT_SECRET", "s3cret")]

/-! ## Shared lemmas -/

theorem ms_thirty_days : ms "30d" = some 2592000000 := by rfl

theorem signingSecret_ne_empty (env : Env) : signingSecret env ≠ "" := by
  unfold signingSecret orDefault
  split
  · split
    · decide
    · assumption
  · decide

theorem generateToken_eq (env : Env) (now id : Nat) :
    generateToken env now id =
      Except.ok { id := id, iat := now, exp := now + 2592000, key := signingSecret env } := by
  unfold generateToken jwtSign
  rw [if_neg (signingSecret_ne_empty env), ms_thirty_days]

theorem signup_of_existing (M : UserModel) (env : Env) (now : Nat) (db : Store) (body : Body)
    (u : User) (h : M.findOne db (body.get "email") = Except.ok (some u)) :
    signup M env now db body =
      ⟨some { status := 400, body := [("message", Json.str "User already exists")] }, db,
        [Call.findOne (body.get "email")]⟩ := by
  simp only [signup, h]

theorem signup_of_created (M : UserModel) (env : Env) (now : Nat) (db : Store) (body : Body)
    (u : User) (db1 : Store)
    (hfind : M.findOne db (body.get "email") = Except.ok none)
    (hcreate : M.create db (body.get "name") (body.get "email") (body.get "password") =
      Except.ok (some u, db1)) :
    signup M env now db body =
      ⟨some { status := 201,
              body := [("_id", Json.num u._id), ("name", Json.str u.name),
                       ("email", Json.str u.email), ("isAdmin", Json.bool u.isAdmin),
                       ("token", Json.jwt
                          { id := u._id, iat := now, exp := now + 2592000,
                            key := signingSecret env })] },
        db1,
        [Call.findOne (body.get "email"),
         Call.create (body.get "name") (body.get "email") (body.get "password")]⟩ := by
  simp only [signup, hfind, hcreate, generateToken_eq]

theorem login_of_unknown (M : UserModel) (env : Env) (now : Nat) (db : Store) (body : Body)
    (h : M.findOne db (body.get "email") = Except.ok none) :
    login M env now db body =
      ⟨some { status := 401, body := [("message", Json.str "Invalid email or password")] }, db,
        [Call.findOne (body.get "email")]⟩ := by
  simp only [login, h]

theorem login_of_mismatch (M : UserModel) (env : Env) (now : Nat) (db : Store) (body : Body)
    (u : User) (hfind : M.findOne db (body.get "email") = Except.ok (some u))
    (hpw : M.matchPassword u (body.get "password") = Except.ok false) :
    login M env now db body =
      ⟨some { status := 401, body := [("message", Json.str "Invalid email or password")] }, db,
        [Call.findOne (body.get "email"), Call.matchPassword u._id (body.get "password")]⟩ := by
  simp only [login, hfind, hpw]

theorem login_of_match (M : UserModel) (env : Env) (now : Nat) (db : Store) (body : Body)
    (u : User) (hfind : M.findOne db (body.get "email") = Except.ok (some u))
    (hpw : M.matchPassword u (body.get "password") = Except.ok true) :
    login M env now db body =
      ⟨some { status := 200,
              body := [("_id", Json.num u._id), ("name", Json.str u.name),
                       ("email", Json.str u.email), ("isAdmin", Json.bool u.isAdmin),
                       ("isLocked", Json.bool u.isLocked),
                       ("token", Json.jwt
                          { id := u._id, iat := now, exp := now + 2592000,
                            key := signingSecret env })] },
        db,
        [Call.findOne (body.get "email"), Call.matchPassword u._id (body.get "password")]⟩ := by
  simp only [login, hfind, hpw, generateToken_eq]

theorem login_of_findOne_error (M : UserModel) (env : Env) (now : Nat) (db : Store)
    (body : Body) (e : String) (h : M.findOne db (body.get "email") = Except.error e) :
    login M env now db body = ⟨some (caught e), db, [Call.findOne (body.get "email")]⟩ := by
  simp only [login, h]

theorem login_of_matchPassword_error (M : UserModel) (env : Env) (now : Nat) (db : Store)
    (body : Body) (u : User) (e : String)
    (hfind : M.findOne db (body.get "email") = Except.ok (some u))
    (hpw : M.matchPassword u (body.get "password") = Except.error e) :
    login M env now db body =
      ⟨some (caught e), db,
        [Call.findOne (body.get "email"), Call.matchPassword u._id (body.get "password")]⟩ := by
  simp only [login, hfind, hpw]

theorem findByEmail_of_mem (db : Store) (u : User) (e : String)
    (huniq : db.Pairwise (fun a b => lowerCase a.email ≠ lowerCase b.email))
    (hu : u ∈ db) (hcase : lowerCase e = lowerCase u.email) :
    findByEmail db e = some u := by
  induction db with
  | nil => simp at hu
  | cons a l ih =>
    rw [List.pairwise_cons] at huniq
    unfold findByEmail at ih ⊢
    rw [List.find?_cons]
    rcases List.mem_cons.mp hu with rfl | hmem
    · have heq : (lowerCase u.email == lowerCase e) = true := by
        rw [hcase]; exact beq_self_eq_true _
      rw [heq]
    · have hne : (lowerCase a.email == lowerCase e) = false := by
        rw [hcase]; exact beq_false_of_ne (huniq.1 u hmem)
      rw [hne]
      exact ih huniq.2 hmem

theorem nextId_gt (db : Store) (u : User) (hu : u ∈ db) : u._id < nextId db := by
  induction db with
  | nil => simp at hu
  | cons a l ih =>
    unfold nextId at ih ⊢
    simp only [List.map_cons, List.foldr_cons]
    rcases List.mem_cons.mp hu with rfl | hmem
    · omega
    · have := ih hmem
      omega

theorem createUser_ok (H : Hasher) (db db1 : Store) (name email password : JSVal) (u : User)
    (h : createUser H db name email password = Except.ok (some u, db1)) :
    ∃ n e p, name = JSVal.str n ∧ email = JSVal.str e ∧ password = JSVal.str p ∧
      findByEmail db e = none ∧
      u = { _id := nextId db, name := n, email := e, password := H.hash p,
            isAdmin := false, isLocked := false } ∧
      db1 = db ++ [u] := by
  unfold createUser at h
  split at h
  · rename_i n e p
    split at h
    · cases h
    · split at h
      · cases h
      · rename_i hnone
        simp only [Except.ok.injEq, Prod.mk.injEq, Option.some.injEq] at h
        refine ⟨n, e, p, rfl, rfl, rfl, hnone, h.1.symm, ?_⟩
        rw [← h.2, ← h.1]
  · cases h

/-- The store invariant of the specification, no two users share an email up
to letter case, is kept by `createUser`. -/
theorem createUser_keeps_emails_unique (H : Hasher) (db db1 : Store)
    (name email password : JSVal) (u : User)
    (huniq : db.Pairwise (fun a b => lowerCase a.email ≠ lowerCase b.email))
    (h : createUser H db name email password = Except.ok (some u, db1)) :
    db1.Pairwise (fun a b => lowerCase a.email ≠ lowerCase b.email) := by
  obtain ⟨n, e, p, -, -, -, hnone, hu, hdb⟩ := createUser_ok H db db1 _ _ _ u h
  rw [hdb, List.pairwise_append]
  refine ⟨huniq, List.pairwise_singleton _ _, ?_⟩
  intro a ha b hb
  rw [List.mem_singleton] at hb
  unfold findByEmail at hnone
  rw [List.find?_eq_none] at hnone
  have := hnone a ha
  rw [hb, hu]
  simpa using this

/-! ## Login: refusal of invalid credentials -/

/-- C1: whenever `User.findOne` finds no user for the requested email, or
finds one whose `matchPassword` returns false for the supplied password,
`login` responds 401 with the body `message: Invalid email or password`; and
any other login run that is refused for either of the two reasons gets the
very same response (status and body). -/
theorem login_invalid_credentials_uniform (M : UserModel) (env : Env) (now : Nat)
    (db : Store) (body : Body)
    (h : M.findOne db (body.get "email") = Except.ok none ∨
      ∃ u, M.findOne db (body.get "email") = Except.ok (some u) ∧
        M.matchPassword u (body.get "password") = Except.ok false) :
    (login M env now db body).response =
        some { status := 401, body := [("message", Json.str "Invalid email or password")] } ∧
      ∀ (M2 : UserModel) (env2 : Env) (now2 : Nat) (db2 : Store) (body2 : Body),
        (M2.findOne db2 (body2.get "email") = Except.ok none ∨
          ∃ u, M2.findOne db2 (body2.get "email") = Except.ok (some u) ∧
            M2.matchPassword u (body2.get "password") = Except.ok false) →
        (login M2 env2 now2 db2 body2).response = (login M env now db body).response := by
  have key : ∀ (M : UserModel) (env : Env) (now : Nat) (db : Store) (body : Body),
      (M.findOne db (body.get "email") = Except.ok none ∨
        ∃ u, M.findOne db (body.get "email") = Except.ok (some u) ∧
          M.matchPassword u (body.get "password") = Except.ok false) →
      (login M env now db body).response =
        some { status := 401, body := [("message", Json.str "Invalid email or password")] } := by
    intro M env now db body h
    rcases h with h | ⟨u, hfind, hpw⟩
    · rw [login_of_unknown M env now db body h]
    · rw [login_of_mismatch M env now db body u hfind hpw]
  refine ⟨key M env now db body h, ?_⟩
  intro M2 env2 now2 db2 body2 h2
  rw [key M env now db body h, key M2 env2 now2 db2 body2 h2]

/-- C1 at a concrete store: a wrong password for Ana, compared with the
login of an email nobody has. -/
theorem login_invalid_credentials_uniform_witness :
    (login (specModel tagHasher) configuredEnv 1000 [ana] anaWrongPassword).response =
        some { status := 401, body := [("message", Json.str "Invalid email or password")] } ∧
      (login (specModel tagHasher) configuredEnv 2000 [ana] strangerLogin).response =
        (login (specModel tagHasher) configuredEnv 1000 [ana] anaWrongPassword).response :=
  have h := login_invalid_credentials_uniform (specModel tagHasher) configuredEnv 1000 [ana]
    anaWrongPassword (Or.inr ⟨ana, rfl, rfl⟩)
  ⟨h.1, h.2 (specModel tagHasher) configuredEnv 2000 [ana] strangerLogin (Or.inl rfl)⟩

/-! ## Signup: duplicate email -/

/-- C2: when `User.findOne` returns a record for the request's email,
`signup` responds 400 with `message: User already exists`, the only call it
makes on the model is that `findOne` (so `User.create` is never called) and
the store is left as it was. -/
theorem signup_duplicate_rejected (M : UserModel) (env : Env) (now : Nat) (db : Store)
    (body : Body) (u : User)
    (hfind : M.findOne db (body.get "email") = Except.ok (some u)) :
    (signup M env now db body).response =
        some { status := 400, body := [("message", Json.str "User already exists")] } ∧
      (signup M env now db body).calls = [Call.findOne (body.get "email")] ∧
      (∀ n e p, Call.create n e p ∉ (signup M env now db body).calls) ∧
      (signup M env now db body).store = db := by
  rw [signup_of_existing M env now db body u hfind]
  simp

/-- C2 at a concrete store: a second signup with Ana's email. -/
theorem signup_duplicate_rejected_witness :
    (signup (specModel tagHasher) configuredEnv 1000 [ana] anaSignup).response =
        some { status := 400, body := [("message", Json.str "User already exists")] } ∧
      (signup (specModel tagHasher) configuredEnv 1000 [ana] anaSignup).calls =
        [Call.findOne (anaSignup.get "email")] ∧
      (∀ n e p, Call.create n e p ∉
        (signup (specModel tagHasher) configuredEnv 1000 [ana] anaSignup).calls) ∧
      (signup (specModel tagHasher) configuredEnv 1000 [ana] anaSignup).store = [ana] :=
  signup_duplicate_rejected (specModel tagHasher) configuredEnv 1000 [ana] anaSignup ana rfl

/-! ## Login: the full contract -/

/-- C4: if `User.findOne` returns a user and `matchPassword` returns true,
`login` responds 200 with the `_id`, `name`, `email`, `isAdmin`, `isLocked`
of that user and a token issued for that user's id; if no user is found, or
`matchPassword` returns false, it responds 401 with
`message: Invalid email or password`. -/
theorem login_contract (M : UserModel) (env : Env) (now : Nat) (db : Store) (body : Body) :
    (∀ u, M.findOne db (body.get "email") = Except.ok (some u) →
        M.matchPassword u (body.get "password") = Except.ok true →
        ∃ token, generateToken env now u._id = Except.ok token ∧ token.id = u._id ∧
          (login M env now db body).response =
            some { status := 200,
                   body := [("_id", Json.num u._id), ("name", Json.str u.name),
                            ("email", Json.str u.email), ("isAdmin", Json.bool u.isAdmin),
                            ("isLocked", Json.bool u.isLocked), ("token", Json.jwt token)] }) ∧
      (M.findOne db (body.get "email") = Except.ok none →
        (login M env now db body).response =
          some { status := 401, body := [("message", Json.str "Invalid email or password")] }) ∧
      (∀ u, M.findOne db (body.get "email") = Except.ok (some u) →
        M.matchPassword u (body.get "password") = Except.ok false →
        (login M env now db body).response =
          some { status := 401, body := [("message", Json.str "Invalid email or password")] }) := by
  refine ⟨?_, ?_, ?_⟩
  · intro u hfind hpw
    refine ⟨_, generateToken_eq env now u._id, rfl, ?_⟩
    rw [login_of_match M env now db body u hfind hpw]
  · intro h
    rw [login_of_unknown M env now db body h]
  · intro u hfind hpw
    rw [login_of_mismatch M env now db body u hfind hpw]

/-- C4 at a concrete store: Ana logs in with her password. -/
theorem login_contract_witness :
    ∃ token, generateToken configuredEnv 1000 ana._id = Except.ok token ∧ token.id = ana._id ∧
      (login (specModel tagHasher) configuredEnv 1000 [ana] anaLogin).response =
        some { status := 200,
               body := [("_id", Json.num ana._id), ("name", Json.str ana.name),
                        ("email", Json.str ana.email), ("isAdmin", Json.bool ana.isAdmin),
                        ("isLocked", Json.bool ana.isLocked), ("token", Json.jwt token)] } :=
  (login_contract (specModel tagHasher) configuredEnv 1000 [ana] anaLogin).1 ana rfl rfl

/-! ## Login and the lock flag -/

/-- C5 fails on the code: with the locked account of Ana in the store, a
login with her email and password is answered 200 with a token for her id;
the body reports `isLocked: true`. -/
theorem login_locked_user_receives_token :
    (login (specModel tagHasher) configuredEnv 1000 [lockedAna] anaLogin).response =
      some { status := 200,
             body := [("_id", Json.num 1), ("name", Json.str "Ana"),
                      ("email", Json.str "a@x.com"), ("isAdmin", Json.bool false),
                      ("isLocked", Json.bool true),
                      ("token", Json.jwt
                         { id := 1, iat := 1000, exp := 2593000, key := "s3cret" })] } := by
  rfl

/-- C5 as amended: `login` does not consult `isLocked`.  For a user record
with `isLocked = true` whose email and password are valid, it responds 200
with that user's fields, `isLocked: true`, and a token for that user's id:
the lock state is reported, not enforced, at login. -/
theorem login_reports_lock_state (M : UserModel) (env : Env) (now : Nat) (db : Store)
    (body : Body) (u : User)
    (hfind : M.findOne db (body.get "email") = Except.ok (some u))
    (hpw : M.matchPassword u (body.get "password") = Except.ok true)
    (hlocked : u.isLocked = true) :
    (login M env now db body).response =
      some { status := 200,
             body := [("_id", Json.num u._id), ("name", Json.str u.name),
                      ("email", Json.str u.email), ("isAdmin", Json.bool u.isAdmin),
                      ("isLocked", Json.bool true),
                      ("token", Json.jwt
                         { id := u._id, iat := now, exp := now + 2592000,
                           key := signingSecret env })] } := by
  rw [login_of_match M env now db body u hfind hpw, hlocked]

/-- C5 as amended, at the locked account of Ana. -/
theorem login_reports_lock_state_witness :
    (login (specModel tagHasher) configuredEnv 1000 [lockedAna] anaLogin).response =
      some { status := 200,
             body := [("_id", Json.num lockedAna._id), ("name", Json.str lockedAna.name),
                      ("email", Json.str lockedAna.email),
                      ("isAdmin", Json.bool lockedAna.isAdmin),
                      ("isLocked", Json.bool true),
                      ("token", Json.jwt
                         { id := lockedAna._id, iat := 1000, exp := 1000 + 2592000,
                           key := signingSecret configuredEnv })] } :=
  login_reports_lock_state (specModel tagHasher) configuredEnv 1000 [lockedAna] anaLogin
    lockedAna rfl rfl rfl

/-! ## Login: errors thrown by the model -/

/-- C7 fails on the code: when the lookup throws, `login` answers 400, not
500, and the body is the thrown error's message. -/
theorem login_echoes_thrown_message :
    (login (failingModel "connect ECONNREFUSED 127.0.0.1:27017") configuredEnv 1000 [ana]
        anaLogin).response =
      some { status := 400,
             body := [("message", Json.str "connect ECONNREFUSED 127.0.0.1:27017")] } := by
  rfl

/-- C7 as amended: for every login execution in which `User.findOne` or
`matchPassword` throws an error `e`, the response is status 400 with the
body `message: e.message`. -/
theorem login_error_is_400_with_message (M : UserModel) (env : Env) (now : Nat) (db : Store)
    (body : Body) (e : String)
    (h : M.findOne db (body.get "email") = Except.error e ∨
      ∃ u, M.findOne db (body.get "email") = Except.ok (some u) ∧
        M.matchPassword u (body.get "password") = Except.error e) :
    (login M env now db body).response =
      some { status := 400, body := [("message", Json.str e)] } := by
  rcases h with h | ⟨u, hfind, hpw⟩
  · rw [login_of_findOne_error M env now db body e h]; rfl
  · rw [login_of_matchPassword_error M env now db body u e hfind hpw]; rfl

/-- C7 as amended, at a lookup that throws. -/
theorem login_error_is_400_with_message_witness :
    (login (failingModel "timeout") productionEnv 5 [] strangerLogin).response =
      some { status := 400, body := [("message", Json.str "timeout")] } :=
  login_error_is_400_with_message (failingModel "timeout") productionEnv 5 [] strangerLogin
    "timeout" (Or.inl rfl)

/-! ## Signup: a fresh email -/

/-- C3: for a signup request whose email matches no existing record and
for which `User.create` succeeds with the record `u`, `signup` calls
`User.create` once, the store afterwards is the store before with the one
record `u` added (`u` was not in it), the response is 201 with `u`'s `_id`,
`name`, `email` and `isAdmin`, and the token of the response, verified with
the signing secret at any time before its expiry, yields `u`'s id. -/
theorem signup_fresh_creates_and_token_verifies (H : Hasher) (env : Env) (now : Nat)
    (db : Store) (body : Body) (u : User) (db1 : Store)
    (hfresh : (specModel H).findOne db (body.get "email") = Except.ok none)
    (hcreate : (specModel H).create db (body.get "name") (body.get "email")
      (body.get "password") = Except.ok (some u, db1)) :
    (signup (specModel H) env now db body).store = db ++ [u] ∧ u ∉ db ∧
      (signup (specModel H) env now db body).calls =
        [Call.findOne (body.get "email"),
         Call.create (body.get "name") (body.get "email") (body.get "password")] ∧
      ∃ token,
        (signup (specModel H) env now db body).response =
          some { status := 201,
                 body := [("_id", Json.num u._id), ("name", Json.str u.name),
                          ("email", Json.str u.email), ("isAdmin", Json.bool u.isAdmin),
                          ("token", Json.jwt token)] } ∧
        now < token.exp ∧
        ∀ t, t < token.exp → jwtVerify token (signingSecret env) t = some u._id := by
  rw [signup_of_created (specModel H) env now db body u db1 hfresh hcreate]
  obtain ⟨n, e, p, -, -, -, -, hu, hdb⟩ := createUser_ok H db db1 _ _ _ u hcreate
  refine ⟨hdb, ?_, rfl, _, rfl, ?_, ?_⟩
  · intro hmem
    have hlt := nextId_gt db u hmem
    rw [hu] at hlt
    exact Nat.lt_irrefl _ hlt
  · show now < now + 2592000
    omega
  · intro t ht
    unfold jwtVerify
    rw [if_pos ⟨rfl, ht⟩]

/-- C3 at the empty store: the signup of Ana. -/
theorem signup_fresh_creates_and_token_verifies_witness :
    (signup (specModel tagHasher) configuredEnv 1000 [] anaSignup).store = [] ++ [ana] ∧
      ana ∉ ([] : Store) ∧
      (signup (specModel tagHasher) configuredEnv 1000 [] anaSignup).calls =
        [Call.findOne (anaSignup.get "email"),
         Call.create (anaSignup.get "name") (anaSignup.get "email")
           (anaSignup.get "password")] ∧
      ∃ token,
        (signup (specModel tagHasher) configuredEnv 1000 [] anaSignup).response =
          some { status := 201,
                 body := [("_id", Json.num ana._id), ("name", Json.str ana.name),
                          ("email", Json.str ana.email), ("isAdmin", Json.bool ana.isAdmin),
                          ("token", Json.jwt token)] } ∧
        1000 < token.exp ∧
        ∀ t, t < token.exp → jwtVerify token (signingSecret configuredEnv) t = some ana._id :=
  signup_fresh_creates_and_token_verifies tagHasher configuredEnv 1000 [] anaSignup ana
    ([] ++ [ana]) rfl rfl

/-! ## Signup reads three fields of the body -/

/-- C6: two signup requests that agree on `name`, `email` and `password`
(whatever else their bodies hold, `isAdmin` and `isLocked` included), run on
the same store, make the same calls on the model with the same arguments,
leave the same store and send the same response apart from the issuance
time of the token; run at the same time they have the very same outcome. -/
theorem signup_reads_only_name_email_password (M : UserModel) (env : Env)
    (now1 now2 : Nat) (db : Store) (b1 b2 : Body)
    (hn : b1.get "name" = b2.get "name") (he : b1.get "email" = b2.get "email")
    (hp : b1.get "password" = b2.get "password") :
    signup M env now1 db b1 = signup M env now1 db b2 ∧
      (signup M env now1 db b1).calls = (signup M env now2 db b2).calls ∧
      (signup M env now1 db b1).store = (signup M env now2 db b2).store ∧
      (signup M env now1 db b1).response.map withoutIssuanceTime =
        (signup M env now2 db b2).response.map withoutIssuanceTime := by
  simp only [signup, hn, he, hp, generateToken_eq]
  refine ⟨trivial, ?_, ?_, ?_⟩ <;>
    (split
     · rfl
     · rfl
     · split
       · rfl
       · rfl
       · simp [withoutIssuanceTime, Json.sinceIssuance])

/-- C6 at the empty store: the signup of Ana with and without the flags
`isAdmin: true` and `isLocked: true` in the body. -/
theorem signup_reads_only_name_email_password_witness :
    signup (specModel tagHasher) configuredEnv 1000 [] anaSignup =
        signup (specModel tagHasher) configuredEnv 1000 [] anaSignupAsAdmin ∧
      (signup (specModel tagHasher) configuredEnv 1000 [] anaSignup).calls =
        (signup (specModel tagHasher) configuredEnv 2000 [] anaSignupAsAdmin).calls ∧
      (signup (specModel tagHasher) configuredEnv 1000 [] anaSignup).store =
        (signup (specModel tagHasher) configuredEnv 2000 [] anaSignupAsAdmin).store ∧
      (signup (specModel tagHasher) configuredEnv 1000 [] anaSignup).response.map
          withoutIssuanceTime =
        (signup (specModel tagHasher) configuredEnv 2000 [] anaSignupAsAdmin).response.map
          withoutIssuanceTime :=
  signup_reads_only_name_email_password (specModel tagHasher) configuredEnv 1000 2000 []
    anaSignup anaSignupAsAdmin rfl rfl rfl

/-! ## The issued token -/

/-- C8: for every user id, `generateToken id` returns a token whose payload
id is that id and whose expiry is 2,592,000 seconds (30 days) after its
issuance time; and every token in a response of `signup` or of `login` is
such a token, issued at the time of the request for the `_id` of the same
response. -/
theorem generateToken_embeds_id_for_thirty_days (M : UserModel) (env : Env) (now : Nat)
    (db : Store) (body : Body) (id : Nat) :
    (∃ token, generateToken env now id = Except.ok token ∧ token.id = id ∧
        token.iat = now ∧ token.exp = token.iat + 2592000 ∧ 2592000 = 30 * 24 * 60 * 60) ∧
      (∀ r token, (signup M env now db body).response = some r →
        r.body.lookup "token" = some (Json.jwt token) →
        generateToken env now token.id = Except.ok token ∧
          r.body.lookup "_id" = some (Json.num token.id) ∧
          token.iat = now ∧ token.exp = token.iat + 2592000) ∧
      (∀ r token, (login M env now db body).response = some r →
        r.body.lookup "token" = some (Json.jwt token) →
        generateToken env now token.id = Except.ok token ∧
          r.body.lookup "_id" = some (Json.num token.id) ∧
          token.iat = now ∧ token.exp = token.iat + 2592000) := by
  refine ⟨⟨_, generateToken_eq env now id, rfl, rfl, rfl, by norm_num⟩, ?_, ?_⟩
  · intro r token hr htok
    simp only [signup, generateToken_eq] at hr
    split at hr
    · cases hr; simp [caught, List.lookup] at htok
    · cases hr; simp [List.lookup] at htok
    · split at hr
      · cases hr; simp [caught, List.lookup] at htok
      · cases hr
      · cases hr
        simp [List.lookup] at htok
        subst htok
        simp [List.lookup, generateToken_eq]
  · intro r token hr htok
    simp only [login, generateToken_eq] at hr
    split at hr
    · cases hr; simp [caught, List.lookup] at htok
    · cases hr; simp [List.lookup] at htok
    · split at hr
      · cases hr; simp [caught, List.lookup] at htok
      · cases hr; simp [List.lookup] at htok
      · cases hr
        simp [List.lookup] at htok
        subst htok
        simp [List.lookup, generateToken_eq]

/-- C8 at concrete requests: the tokens of Ana's signup and of her login. -/
theorem generateToken_embeds_id_for_thirty_days_witness :
    generateToken configuredEnv 1000 1 =
        Except.ok { id := 1, iat := 1000, exp := 2593000, key := "s3cret" } ∧
      (signup (specModel tagHasher) configuredEnv 1000 [] anaSignup).response.bind
          (fun r => r.body.lookup "token") =
        some (Json.jwt { id := 1, iat := 1000, exp := 2593000, key := "s3cret" }) ∧
      (login (specModel tagHasher) configuredEnv 1000 [ana] anaLogin).response.bind
          (fun r => r.body.lookup "token") =
        some (Json.jwt { id := 1, iat := 1000, exp := 2593000, key := "s3cret" }) ∧
      (∃ token, generateToken configuredEnv 1000 7 = Except.ok token ∧ token.id = 7 ∧
        token.iat = 1000 ∧ token.exp = token.iat + 2592000 ∧ 2592000 = 30 * 24 * 60 * 60) :=
  ⟨rfl, rfl, rfl,
    (generateToken_embeds_id_for_thirty_days (specModel tagHasher) configuredEnv 1000 [ana]
      anaLogin 7).1⟩

/-! ## Email lookup and letter case -/

/-- C9: in a store whose emails are pairwise different up to letter case,
for a user `u` of the store and an email `e1` that differs from `u`'s only
in letter case, `signup` with `e1` is rejected with
`message: User already exists` and the store is unchanged, and `login` with
`e1` and a password the hasher verifies against `u`'s hash succeeds with
`u`'s fields and a token for `u`'s id. -/
theorem email_lookup_ignores_letter_case (H : Hasher) (env : Env) (now : Nat) (db : Store)
    (u : User) (e1 pw : String) (sbody lbody : Body)
    (huniq : db.Pairwise (fun a b => lowerCase a.email ≠ lowerCase b.email))
    (hu : u ∈ db) (hcase : lowerCase e1 = lowerCase u.email)
    (hs : sbody.get "email" = JSVal.str e1)
    (hl : lbody.get "email" = JSVal.str e1) (hlp : lbody.get "password" = JSVal.str pw)
    (hpw : H.verify pw u.password = true) :
    (signup (specModel H) env now db sbody).response =
        some { status := 400, body := [("message", Json.str "User already exists")] } ∧
      (signup (specModel H) env now db sbody).store = db ∧
      (signup (specModel H) env now db sbody).calls = [Call.findOne (JSVal.str e1)] ∧
      (login (specModel H) env now db lbody).response =
        some { status := 200,
               body := [("_id", Json.num u._id), ("name", Json.str u.name),
                        ("email", Json.str u.email), ("isAdmin", Json.bool u.isAdmin),
                        ("isLocked", Json.bool u.isLocked),
                        ("token", Json.jwt
                           { id := u._id, iat := now, exp := now + 2592000,
                             key := signingSecret env })] } := by
  have hfind : findByEmail db e1 = some u := findByEmail_of_mem db u e1 huniq hu hcase
  have hsf : (specModel H).findOne db (sbody.get "email") = Except.ok (some u) := by
    rw [hs]; simp only [specModel, hfind]
  have hlf : (specModel H).findOne db (lbody.get "email") = Except.ok (some u) := by
    rw [hl]; simp only [specModel, hfind]
  have hlm : (specModel H).matchPassword u (lbody.get "password") = Except.ok true := by
    rw [hlp]; simp only [specModel, hpw]
  rw [signup_of_existing (specModel H) env now db sbody u hsf,
    login_of_match (specModel H) env now db lbody u hlf hlm, hs]
  exact ⟨rfl, rfl, rfl, rfl⟩

/-- C9 at a concrete store: Ana is stored as `a@x.com`; signup and login
use `A@X.COM`. -/
theorem email_lookup_ignores_letter_case_witness :
    (signup (specModel tagHasher) configuredEnv 1000 [ana] anaUpperSignup).response =
        some { status := 400, body := [("message", Json.str "User already exists")] } ∧
      (signup (specModel tagHasher) configuredEnv 1000 [ana] anaUpperSignup).store = [ana] ∧
      (signup (specModel tagHasher) configuredEnv 1000 [ana] anaUpperSignup).calls =
        [Call.findOne (JSVal.str "A@X.COM")] ∧
      (login (specModel tagHasher) configuredEnv 1000 [ana] anaUpperLogin).response =
        some { status := 200,
               body := [("_id", Json.num ana._id), ("name", Json.str ana.name),
                        ("email", Json.str ana.email), ("isAdmin", Json.bool ana.isAdmin),
                        ("isLocked", Json.bool ana.isLocked),
                        ("token", Json.jwt
                           { id := ana._id, iat := 1000, exp := 1000 + 2592000,
                             key := signingSecret configuredEnv })] } :=
  email_lookup_ignores_letter_case tagHasher configuredEnv 1000 [ana] ana "A@X.COM" "pw1"
    anaUpperSignup anaUpperLogin (List.pairwise_singleton _ _) (List.mem_singleton.mpr rfl)
    rfl rfl rfl rfl rfl

/-! ## The signing secret -/

/-- C10 fails on the code: in a production environment where `JWT_SECRET`
is not set, `generateToken` does not fail; it issues a token signed with the
hard-coded `your-secret-key`, and `login` sends such a token. -/
theorem production_without_secret_signs_with_default :
    productionEnv.lookup "JWT_SECRET" = none ∧
      productionEnv.lookup "NODE_ENV" = some "production" ∧
      generateToken productionEnv 1000 1 =
        Except.ok { id := 1, iat := 1000, exp := 2593000, key := "your-secret-key" } ∧
      (login (specModel tagHasher) productionEnv 1000 [ana] anaLogin).response.bind
          (fun r => r.body.lookup "token") =
        some (Json.jwt { id := 1, iat := 1000, exp := 2593000, key := "your-secret-key" }) := by
  exact ⟨rfl, rfl, rfl, rfl⟩

/-- C10 as amended: token signing uses `JWT_SECRET` when it is set to a
non-empty value; when it is unset or empty, `generateToken` does not fail
but signs with the hard-coded `your-secret-key`, whatever the rest of the
environment (production included). -/
theorem generateToken_secret_or_default (env : Env) (now id : Nat) :
    ∃ token, generateToken env now id = Except.ok token ∧
      (∀ s, env.lookup "JWT_SECRET" = some s → s ≠ "" → token.key = s) ∧
      (env.lookup "JWT_SECRET" = none ∨ env.lookup "JWT_SECRET" = some "" →
        token.key = "your-secret-key") := by
  refine ⟨_, generateToken_eq env now id, ?_, ?_⟩
  · intro s hs hne
    simp only [signingSecret, orDefault, hs, if_neg hne]
  · intro h
    rcases h with h | h <;> simp [signingSecret, orDefault, h]

end AuthController
